import Mathlib

/-! MYNT EYE S SDK: `include/mynteye/types.h`

A shallow embedding of the public value types of `types.h` and the properties
established about them.  Definitions keep the names of the C++ source.

Conventions of the embedding:

* `double` entries are taken as exact numbers: the calibration records are
  parametrised by the number type `α`, and evaluated at `ℤ` on inputs whose
  entries are small integers (exactly representable as `double`).
* `std::uint8_t`, `std::uint16_t`, `std::uint32_t` values are natural numbers;
  a cast to a `w`-bit unsigned type is `% 2 ^ w`.
* C++ `int` is 32-bit two's complement.  Signed overflow is undefined behaviour in
  the language: `intMulDefined` and `Resolution.operator_lt_defined` give a result
  only when no product overflows, while `intMul` and `Resolution.operator_lt` give
  the wrap-around reading modulo `2 ^ 32`; the two agree wherever the former is
  defined.
-/

namespace mynteye

/-! ## Extrinsics -/

/-- Rigid transform of `types.h`: `double rotation[3][3]; double translation[3]`. -/
structure Extrinsics (α : Type) where
  rotation : Fin 3 → Fin 3 → α
  translation : Fin 3 → α

/-- Source `Extrinsics::Inverse`: the aggregate
`{{{r00, r10, r20}, {r01, r11, r21}, {r02, r12, r22}}, {-t0, -t1, -t2}}`. -/
def Extrinsics.Inverse {α : Type} [Neg α] (e : Extrinsics α) : Extrinsics α :=
  { rotation := ![![e.rotation 0 0, e.rotation 1 0, e.rotation 2 0],
                  ![e.rotation 0 1, e.rotation 1 1, e.rotation 2 1],
                  ![e.rotation 0 2, e.rotation 1 2, e.rotation 2 2]],
    translation := ![-e.translation 0, -e.translation 1, -e.translation 2] }

/-- Applying a transform to a point: `p ↦ R * p + t`, written out per row. -/
def Extrinsics.apply {α : Type} [Add α] [Mul α] (e : Extrinsics α) (p : Fin 3 → α) :
    Fin 3 → α :=
  fun i => e.rotation i 0 * p 0 + e.rotation i 1 * p 1 + e.rotation i 2 * p 2
    + e.translation i

/-- The rotation is orthogonal: `R * transpose R = identity`, entry by entry. -/
def Extrinsics.Orthogonal {α : Type} [Add α] [Mul α] [Zero α] [One α] (e : Extrinsics α) :
    Prop :=
  ∀ i j : Fin 3,
    e.rotation i 0 * e.rotation j 0 + e.rotation i 1 * e.rotation j 1
      + e.rotation i 2 * e.rotation j 2 = if i = j then 1 else 0

/-- A quarter turn about the z axis followed by a unit shift along x:
rotation `[[0,-1,0],[1,0,0],[0,0,1]]`, translation `(1,0,0)`. -/
def quarterTurnShift : Extrinsics ℤ :=
  { rotation := ![![0, -1, 0], ![1, 0, 0], ![0, 0, 1]],
    translation := ![1, 0, 0] }

/-! ## Enumerations and `MYNTEYE_ENUM_HELPERS` -/

/-- The seven `enum class ... : std::uint8_t` types that get `MYNTEYE_ENUM_HELPERS`. -/
inductive EnumType where
  | Model
  | Stream
  | Capabilities
  | Info
  | Option
  | Source
  | AddOns
  deriving DecidableEq, Repr

/-- Enumerators of each enumeration in declaration order, the guard included. -/
def enumerators : EnumType → List String
  | .Model => ["STANDARD", "STANDARD2", "STANDARD210A", "LAST"]
  | .Stream => ["LEFT", "RIGHT", "LEFT_RECTIFIED", "RIGHT_RECTIFIED", "DISPARITY",
      "DISPARITY_NORMALIZED", "DEPTH", "POINTS", "LAST"]
  | .Capabilities => ["STEREO", "STEREO_COLOR", "COLOR", "DEPTH", "POINTS", "FISHEYE",
      "INFRARED", "INFRARED2", "IMU", "LAST"]
  | .Info => ["DEVICE_NAME", "SERIAL_NUMBER", "FIRMWARE_VERSION", "HARDWARE_VERSION",
      "SPEC_VERSION", "LENS_TYPE", "IMU_TYPE", "NOMINAL_BASELINE", "LAST"]
  | .Option => ["GAIN", "BRIGHTNESS", "CONTRAST", "FRAME_RATE", "IMU_FREQUENCY",
      "EXPOSURE_MODE", "MAX_GAIN", "MAX_EXPOSURE_TIME", "MIN_EXPOSURE_TIME",
      "DESIRED_BRIGHTNESS", "IR_CONTROL", "HDR_MODE", "ACCELEROMETER_RANGE",
      "GYROSCOPE_RANGE", "ACCELEROMETER_LOW_PASS_FILTER", "GYROSCOPE_LOW_PASS_FILTER",
      "ZERO_DRIFT_CALIBRATION", "ERASE_CHIP", "LAST"]
  | .Source => ["VIDEO_STREAMING", "MOTION_TRACKING", "ALL", "LAST"]
  | .AddOns => ["INFRARED", "INFRARED2", "LAST"]

/-- Value of a named enumerator: no enumerator has an initialiser, so the first is `0`
and each next one is the previous plus one, i.e. the position in the declaration. -/
def enumerator (T : EnumType) (name : String) : Nat :=
  (enumerators T).indexOf name

/-- The guard `TYPE::LAST`. -/
def LAST (T : EnumType) : Nat :=
  enumerator T "LAST"

/-- `static_cast<utype>(x)` with `utype = std::uint8_t`. -/
def utype (x : Nat) : Nat :=
  x % 2 ^ 8

/-- Source `is_valid` of `MYNTEYE_ENUM_HELPERS(TYPE)`:
`utype val = static_cast<utype>(value); utype max = static_cast<utype>(TYPE::LAST);
return val < max;`.  An object of the enumeration is given by its stored value. -/
def is_valid (T : EnumType) (value : Nat) : Bool :=
  let val := utype value
  let max := utype (LAST T)
  decide (val < max)

/-- A `std::ostream` in its default formatting state, reduced to the bytes written to it. -/
abbrev ostream := List Nat

/-- Inserter `os << const char *`: the characters of the C string are written. -/
def ostream.write_cstr (os : ostream) (s : String) : ostream :=
  os ++ s.toList.map Char.toNat

/-- Inserter `os << unsigned char` (`std::uint8_t` is `unsigned char`): the character
inserter of the standard library, which writes the one character with that code. -/
def ostream.write_uchar (os : ostream) (c : Nat) : ostream :=
  os ++ [c]

/-- Bytes of the decimal representation of `n`, e.g. `50, 48, 48` (the text 200) for 200. -/
def decimal (n : Nat) : List Nat :=
  (Nat.repr n).toList.map Char.toNat

/-- Source `operator<<` of `MYNTEYE_ENUM_HELPERS(TYPE)`:
`if (is_valid(value)) return os << to_string(value);
else return os << static_cast<utype>(value);`.
`to_string` is only declared in the header and is taken as a parameter. -/
def operator_shl (to_string : Nat → String) (T : EnumType) (os : ostream) (value : Nat) :
    ostream :=
  if is_valid T value then os.write_cstr (to_string value)
  else os.write_uchar (utype value)

/-! ## Format and `MYNTEYE_FOURCC` -/

/-- `(std::uint32_t)(x)`. -/
def uint32 (x : Nat) : Nat :=
  x % 2 ^ 32

/-- Source macro `MYNTEYE_FOURCC(a, b, c, d)`:
`(uint32)(a) | ((uint32)(b) << 8) | ((uint32)(c) << 16) | ((uint32)(d) << 24)`,
each shift computed in `std::uint32_t`. -/
def MYNTEYE_FOURCC (a b c d : Nat) : Nat :=
  uint32 a ||| uint32 (uint32 b <<< 8) ||| uint32 (uint32 c <<< 16)
    ||| uint32 (uint32 d <<< 24)

/-- Enumerators of `enum class Format : std::uint32_t`. -/
inductive Format where
  | GREY
  | YUYV
  | BGR888
  | RGB888
  | LAST
  deriving DecidableEq, Repr

/-- Underlying value of each `Format` enumerator; `LAST` has no initialiser and is the
previous enumerator plus one. -/
def Format.underlying : Format → Nat
  | .GREY => MYNTEYE_FOURCC (Char.toNat 'G') (Char.toNat 'R') (Char.toNat 'E') (Char.toNat 'Y')
  | .YUYV => MYNTEYE_FOURCC (Char.toNat 'Y') (Char.toNat 'U') (Char.toNat 'Y') (Char.toNat 'V')
  | .BGR888 => MYNTEYE_FOURCC (Char.toNat 'B') (Char.toNat 'G') (Char.toNat 'R') (Char.toNat '3')
  | .RGB888 => MYNTEYE_FOURCC (Char.toNat 'R') (Char.toNat 'G') (Char.toNat 'B') (Char.toNat '3')
  | .LAST =>
    MYNTEYE_FOURCC (Char.toNat 'R') (Char.toNat 'G') (Char.toNat 'B') (Char.toNat '3') + 1

/-- Byte `i` of a 32-bit code: `(code >> 8 * i) & 0xFF`. -/
def byteAt (code i : Nat) : Nat :=
  (code >>> (8 * i)) &&& 0xFF

/-- Modelled from the spec: `bytes_per_pixel` is only declared in the header
(`std::size_t bytes_per_pixel(const Format &value)`), its body is not in the source at
hand.  The spec gives `GREY` 8 bits per pixel, `YUYV` 16, `BGR888` and `RGB888` 24, and
for a code outside the recognised set a distinguishable unknown-format outcome that is
propagated to the caller, here `none`. -/
def bytes_per_pixel (value : Nat) : Option Nat :=
  if value = Format.underlying .GREY then some 1
  else if value = Format.underlying .YUYV then some 2
  else if value = Format.underlying .BGR888 then some 3
  else if value = Format.underlying .RGB888 then some 3
  else none

/-! ## Resolution -/

/-- Source `struct Resolution`: `std::uint16_t width; std::uint16_t height`. -/
structure Resolution where
  width : Nat
  height : Nat
  deriving DecidableEq, Repr

/-- Both fields are in the range of `std::uint16_t`. -/
def Resolution.InRange (r : Resolution) : Prop :=
  r.width < 2 ^ 16 ∧ r.height < 2 ^ 16

instance (r : Resolution) : Decidable r.InRange := by
  unfold Resolution.InRange
  infer_instance

/-- Result of an `int` operation whose exact value is `x`: 32-bit two's complement,
overflow wrapping modulo `2 ^ 32`. -/
def wrapInt (x : Int) : Int :=
  (x + 2 ^ 31) % 2 ^ 32 - 2 ^ 31

/-- The product `w * h` of two `std::uint16_t` operands: both are promoted to `int`
(value preserving) and multiplied in `int`. -/
def intMul (w h : Nat) : Int :=
  wrapInt ((w : Int) * (h : Int))

/-- Source `Resolution::operator==`. -/
def Resolution.operator_eq (a other : Resolution) : Bool :=
  a.width == other.width && a.height == other.height

/-- Source `Resolution::operator!=`: `!(*this == other)`. -/
def Resolution.operator_ne (a other : Resolution) : Bool :=
  !(a.operator_eq other)

/-- Source `Resolution::operator<`: `(width * height) < (other.width * other.height)`. -/
def Resolution.operator_lt (a other : Resolution) : Bool :=
  decide (intMul a.width a.height < intMul other.width other.height)

/-- The exact area of `r` fits a signed 32-bit `int`: `width * height ≤ 2 ^ 31 - 1`. -/
def Resolution.AreaFits (r : Resolution) : Prop :=
  r.width * r.height ≤ 2 ^ 31 - 1

instance (r : Resolution) : Decidable r.AreaFits := by
  unfold Resolution.AreaFits
  infer_instance

/-- Neither `a < b` nor `b < a` under `Resolution::operator<`. -/
def Resolution.Incomparable (a b : Resolution) : Prop :=
  a.operator_lt b = false ∧ b.operator_lt a = false

instance (a b : Resolution) : Decidable (a.Incomparable b) := by
  unfold Resolution.Incomparable
  infer_instance

/-- The product `w * h` of two `std::uint16_t` operands as the language defines it:
both are promoted to `int` and the result is the exact product when that is
representable in `int`; otherwise the multiplication overflows, which is undefined
behaviour, and there is no result. -/
def intMulDefined (w h : Nat) : Option Int :=
  if -(2 ^ 31) ≤ (w : Int) * (h : Int) ∧ (w : Int) * (h : Int) ≤ 2 ^ 31 - 1 then
    some ((w : Int) * (h : Int))
  else none

/-- Source `Resolution::operator<`, `(width * height) < (other.width * other.height)`,
as the language defines it: both products are evaluated and compared, and there is no
result when a product overflows `int`. -/
def Resolution.operator_lt_defined (a other : Resolution) : Option Bool :=
  match intMulDefined a.width a.height, intMulDefined other.width other.height with
  | some x, some y => some (decide (x < y))
  | _, _ => none

/-! ## StreamRequest -/

/-- Source `struct StreamRequest`: `std::uint16_t width, height; Format format;
std::uint16_t fps`.  The `Format` object is given by its stored 32-bit value. -/
structure StreamRequest where
  width : Nat
  height : Nat
  format : Nat
  fps : Nat
  deriving DecidableEq, Repr

/-- Source constructor `StreamRequest(width, height, format, fps)`. -/
def StreamRequest.ofDimensions (width height format fps : Nat) : StreamRequest :=
  { width := width, height := height, format := format, fps := fps }

/-- Source constructor `StreamRequest(const Resolution &res, Format format, fps)`:
`width(res.width), height(res.height), format(format), fps(fps)`. -/
def StreamRequest.ofResolution (res : Resolution) (format fps : Nat) : StreamRequest :=
  { width := res.width, height := res.height, format := format, fps := fps }

/-- Source `StreamRequest::GetResolution`: `return {width, height};`. -/
def StreamRequest.GetResolution (r : StreamRequest) : Resolution :=
  { width := r.width, height := r.height }

/-- Source `StreamRequest::operator==`. -/
def StreamRequest.operator_eq (r other : StreamRequest) : Bool :=
  r.width == other.width && r.height == other.height &&
    r.format == other.format && r.fps == other.fps

/-- Source `StreamRequest::operator!=`: `!(*this == other)`. -/
def StreamRequest.operator_ne (r other : StreamRequest) : Bool :=
  !(r.operator_eq other)

/-! ## Calibration tag and intrinsics -/

/-- Source `enum CalibrationModel`. -/
inductive CalibrationModel where
  | CALIB_MODEL_PINHOLE
  | CALIB_MODEL_KANNALA_BRANDT
  | CALIB_MODEL_UNKNOW
  deriving DecidableEq, Repr

/-- Value of each calibration tag: `CALIB_MODEL_PINHOLE = 0`,
`CALIB_MODEL_KANNALA_BRANDT = 1`, and `CALIB_MODEL_UNKNOW` without initialiser, the
previous enumerator plus one. -/
def CalibrationModel.value : CalibrationModel → Nat
  | .CALIB_MODEL_PINHOLE => 0
  | .CALIB_MODEL_KANNALA_BRANDT => 1
  | .CALIB_MODEL_UNKNOW => 1 + 1

/-- Source `struct IntrinsicsBase`. -/
structure IntrinsicsBase where
  calib_model_ : CalibrationModel
  deriving DecidableEq, Repr

/-- Source `struct Intrinsics : public IntrinsicsBase` (pinhole record). -/
structure Intrinsics (α : Type) extends IntrinsicsBase where
  width : Nat
  height : Nat
  fx : α
  fy : α
  cx : α
  cy : α
  model : Nat
  coeffs : Fin 5 → α

/-- Source `struct Intrinsics2 : public IntrinsicsBase` (Kannala-Brandt record). -/
structure Intrinsics2 (α : Type) extends IntrinsicsBase where
  width : Nat
  height : Nat
  k2 : α
  k3 : α
  k4 : α
  k5 : α
  mu : α
  mv : α
  u0 : α
  v0 : α

/-- Source constructor `IntrinsicsBase()`: `calib_model_ = CALIB_MODEL_UNKNOW;`, run on
storage with arbitrary prior content. -/
def IntrinsicsBase.ctor (storage : IntrinsicsBase) : IntrinsicsBase :=
  { storage with calib_model_ := .CALIB_MODEL_UNKNOW }

/-- Source constructor `Intrinsics()`: the base constructor runs first, then
`calib_model_ = CALIB_MODEL_PINHOLE;`; the other members are left as they were. -/
def Intrinsics.ctor {α : Type} (storage : Intrinsics α) : Intrinsics α :=
  let base := IntrinsicsBase.ctor storage.toIntrinsicsBase
  { storage with toIntrinsicsBase := { base with calib_model_ := .CALIB_MODEL_PINHOLE } }

/-- Source constructor `Intrinsics2()`: the base constructor runs first, then
`calib_model_ = CALIB_MODEL_KANNALA_BRANDT;`; the other members are left as they were. -/
def Intrinsics2.ctor {α : Type} (storage : Intrinsics2 α) : Intrinsics2 α :=
  let base := IntrinsicsBase.ctor storage.toIntrinsicsBase
  { storage with
    toIntrinsicsBase := { base with calib_model_ := .CALIB_MODEL_KANNALA_BRANDT } }

/-! ## Frame records -/

/-- Source `struct ImgData`: `std::uint16_t frame_id; std::uint64_t timestamp;
std::uint16_t exposure_time`. -/
structure ImgData where
  frame_id : Nat
  timestamp : Nat
  exposure_time : Nat
  deriving DecidableEq, Repr

/-- Source `ImgData::Reset`: `frame_id = 0; timestamp = 0; exposure_time = 0;`. -/
def ImgData.Reset (self : ImgData) : ImgData :=
  let s1 := { self with frame_id := 0 }
  let s2 := { s1 with timestamp := 0 }
  { s2 with exposure_time := 0 }

/-- Source constructor `ImgData()`: `Reset();` on storage with arbitrary prior content. -/
def ImgData.ctor (storage : ImgData) : ImgData :=
  storage.Reset

/-- Source copy constructor `ImgData(const ImgData &other)`: the three members are
assigned from `other`.  Returns the constructed object and `other` after the call. -/
def ImgData.copy_ctor (storage other : ImgData) : ImgData × ImgData :=
  let s1 := { storage with frame_id := other.frame_id }
  let s2 := { s1 with timestamp := other.timestamp }
  let s3 := { s2 with exposure_time := other.exposure_time }
  (s3, other)

/-- Source `ImgData::operator=(const ImgData &other)`: the three members are assigned
from `other` and `*this` is returned.  Returns `*this` and `other` after the call. -/
def ImgData.operator_assign (self other : ImgData) : ImgData × ImgData :=
  let s1 := { self with frame_id := other.frame_id }
  let s2 := { s1 with timestamp := other.timestamp }
  let s3 := { s2 with exposure_time := other.exposure_time }
  (s3, other)

/-- Source `struct ImuData`: `std::uint32_t frame_id; std::uint8_t flag;
std::uint64_t timestamp; double accel[3]; double gyro[3]; double temperature`. -/
structure ImuData (α : Type) where
  frame_id : Nat
  flag : Nat
  timestamp : Nat
  accel : Fin 3 → α
  gyro : Fin 3 → α
  temperature : α

/-- Library `std::fill(arr + first, arr + last, value)` on a three-element array: every
element at a position in `[first, last)` is assigned `value`. -/
def fill {α : Type} (arr : Fin 3 → α) (first last : Nat) (value : α) : Fin 3 → α :=
  fun i => if first ≤ i.val ∧ i.val < last then value else arr i

/-- Source `ImuData::Reset`: `flag = 0; timestamp = 0; std::fill(accel, accel + 3, 0);
std::fill(gyro, gyro + 3, 0); temperature = 0;`. -/
def ImuData.Reset {α : Type} [Zero α] (self : ImuData α) : ImuData α :=
  let s1 := { self with flag := 0 }
  let s2 := { s1 with timestamp := 0 }
  let s3 := { s2 with accel := fill s2.accel 0 3 0 }
  let s4 := { s3 with gyro := fill s3.gyro 0 3 0 }
  { s4 with temperature := 0 }

/-! ## Supporting lemmas -/

/-- Entry by entry, the code's inverse has the transposed rotation. -/
lemma Extrinsics.Inverse_rotation {α : Type} [Neg α] (e : Extrinsics α) (i j : Fin 3) :
    e.Inverse.rotation i j = e.rotation j i := by
  fin_cases i <;> fin_cases j <;> rfl

/-- Entry by entry, the code's inverse has the negated translation. -/
lemma Extrinsics.Inverse_translation {α : Type} [Neg α] (e : Extrinsics α) (i : Fin 3) :
    e.Inverse.translation i = -e.translation i := by
  fin_cases i <;> rfl

/-- Records with the same rotation and the same translation are the same record. -/
lemma Extrinsics.eq_of_fields {α : Type} (a b : Extrinsics α)
    (hr : a.rotation = b.rotation) (ht : a.translation = b.translation) : a = b := by
  cases a
  cases b
  simp_all

/-- Every guard fits the underlying 8-bit type. -/
lemma LAST_lt (T : EnumType) : LAST T < 2 ^ 8 := by
  cases T <;> decide

/-- On bytes the macro is the positional sum in base 256. -/
lemma MYNTEYE_FOURCC_eq_sum (a b c d : Nat) (ha : a < 256) (hb : b < 256) (hc : c < 256)
    (hd : d < 256) :
    MYNTEYE_FOURCC a b c d = a + 2 ^ 8 * b + 2 ^ 16 * c + 2 ^ 24 * d := by
  have e1 : uint32 a = a := Nat.mod_eq_of_lt (by omega)
  have e2 : uint32 (uint32 b <<< 8) = 2 ^ 8 * b := by
    unfold uint32
    rw [Nat.mod_eq_of_lt (show b < 2 ^ 32 by omega), Nat.shiftLeft_eq, Nat.mul_comm]
    exact Nat.mod_eq_of_lt (by omega)
  have e3 : uint32 (uint32 c <<< 16) = 2 ^ 16 * c := by
    unfold uint32
    rw [Nat.mod_eq_of_lt (show c < 2 ^ 32 by omega), Nat.shiftLeft_eq, Nat.mul_comm]
    exact Nat.mod_eq_of_lt (by omega)
  have e4 : uint32 (uint32 d <<< 24) = 2 ^ 24 * d := by
    unfold uint32
    rw [Nat.mod_eq_of_lt (show d < 2 ^ 32 by omega), Nat.shiftLeft_eq, Nat.mul_comm]
    exact Nat.mod_eq_of_lt (by omega)
  unfold MYNTEYE_FOURCC
  rw [e1, e2, e3, e4]
  have s1 : a ||| 2 ^ 8 * b = 2 ^ 8 * b + a := by
    rw [Nat.or_comm]
    exact (Nat.mul_add_lt_is_or (show a < 2 ^ 8 by omega) b).symm
  have s2 : 2 ^ 8 * b + a ||| 2 ^ 16 * c = 2 ^ 16 * c + (2 ^ 8 * b + a) := by
    rw [Nat.or_comm]
    exact (Nat.mul_add_lt_is_or (show 2 ^ 8 * b + a < 2 ^ 16 by omega) c).symm
  have s3 : 2 ^ 16 * c + (2 ^ 8 * b + a) ||| 2 ^ 24 * d
      = 2 ^ 24 * d + (2 ^ 16 * c + (2 ^ 8 * b + a)) := by
    rw [Nat.or_comm]
    exact (Nat.mul_add_lt_is_or (show 2 ^ 16 * c + (2 ^ 8 * b + a) < 2 ^ 24 by omega) d).symm
  rw [s1, s2, s3]
  omega

/-- Byte extraction is division and remainder. -/
lemma byteAt_eq (code i : Nat) : byteAt code i = code / 2 ^ (8 * i) % 2 ^ 8 := by
  unfold byteAt
  rw [Nat.shiftRight_eq_div_pow]
  exact Nat.and_pow_two_sub_one_eq_mod _ 8

/-- Wrapping is the identity on the range of `int`. -/
lemma wrapInt_of_range (x : Int) (h0 : -(2 ^ 31) ≤ x) (h1 : x < 2 ^ 31) : wrapInt x = x := by
  unfold wrapInt
  omega

/-- When neither product overflows `int`, `operator<` compares the exact areas. -/
lemma Resolution.operator_lt_iff_of_fits (a b : Resolution)
    (ha : a.width * a.height < 2 ^ 31) (hb : b.width * b.height < 2 ^ 31) :
    a.operator_lt b = true ↔ a.width * a.height < b.width * b.height := by
  have ea : intMul a.width a.height = ((a.width * a.height : Nat) : Int) := by
    unfold intMul
    rw [← Nat.cast_mul]
    exact wrapInt_of_range _ (by omega) (by exact_mod_cast ha)
  have eb : intMul b.width b.height = ((b.width * b.height : Nat) : Int) := by
    unfold intMul
    rw [← Nat.cast_mul]
    exact wrapInt_of_range _ (by omega) (by exact_mod_cast hb)
  unfold Resolution.operator_lt
  rw [ea, eb, decide_eq_true_iff]
  exact Nat.cast_lt

/-! ## Extrinsics: claims -/

/-- C1: at the quarter turn about z with translation `(1,0,0)`, the code's
`Inverse()` returns the translation `(-1,0,0)`, the plain negation, whereas the
negated translation rotated by the transpose,
`-(R[0][i]*t[0] + R[1][i]*t[1] + R[2][i]*t[2])`, is `(0,1,0)`; the two differ at
`i = 0` and at `i = 1`. -/
theorem Inverse_translation_at_quarterTurnShift :
    quarterTurnShift.Inverse.translation = ![-1, 0, 0] ∧
    (fun i : Fin 3 =>
      -(quarterTurnShift.rotation 0 i * quarterTurnShift.translation 0
        + quarterTurnShift.rotation 1 i * quarterTurnShift.translation 1
        + quarterTurnShift.rotation 2 i * quarterTurnShift.translation 2)) = ![0, 1, 0] ∧
    ¬ (∀ i : Fin 3, quarterTurnShift.Inverse.translation i =
      -(quarterTurnShift.rotation 0 i * quarterTurnShift.translation 0
        + quarterTurnShift.rotation 1 i * quarterTurnShift.translation 1
        + quarterTurnShift.rotation 2 i * quarterTurnShift.translation 2)) := by
  decide

/-- C2: the quarter turn about z with translation `(1,0,0)` has an orthogonal
rotation, yet applying it to the origin and then applying the code's `Inverse()`
gives `(-1,-1,0)`, not the origin: the composition is not the identity. -/
theorem Inverse_apply_at_quarterTurnShift :
    quarterTurnShift.Orthogonal ∧
    quarterTurnShift.apply ![0, 0, 0] = ![1, 0, 0] ∧
    quarterTurnShift.Inverse.apply (quarterTurnShift.apply ![0, 0, 0]) = ![-1, -1, 0] ∧
    quarterTurnShift.Inverse.apply (quarterTurnShift.apply ![0, 0, 0]) ≠ ![0, 0, 0] := by
  refine ⟨?_, ?_, ?_, ?_⟩
  · unfold Extrinsics.Orthogonal
    decide
  · decide
  · decide
  · decide

/-- C3: for every extrinsics `e` and all indices `i`, `j`, the rotation of
`e.Inverse()` at `[i][j]` is the rotation of `e` at `[j][i]`; `Inverse` is a total
function and asks nothing of the rotation. -/
theorem Inverse_rotation_transpose {α : Type} [Neg α] (e : Extrinsics α) (i j : Fin 3) :
    e.Inverse.rotation i j = e.rotation j i :=
  Extrinsics.Inverse_rotation e i j

/-- C4: `e.Inverse().Inverse()` has the same nine rotation entries and the same three
translation entries as `e`, for entries in any number type where negation is an
involution; hence it is the same record. -/
theorem Inverse_Inverse {α : Type} [InvolutiveNeg α] (e : Extrinsics α) :
    (∀ i j : Fin 3, e.Inverse.Inverse.rotation i j = e.rotation i j) ∧
    (∀ i : Fin 3, e.Inverse.Inverse.translation i = e.translation i) ∧
    e.Inverse.Inverse = e := by
  have hr : ∀ i j : Fin 3, e.Inverse.Inverse.rotation i j = e.rotation i j := by
    intro i j
    rw [Extrinsics.Inverse_rotation, Extrinsics.Inverse_rotation]
  have ht : ∀ i : Fin 3, e.Inverse.Inverse.translation i = e.translation i := by
    intro i
    rw [Extrinsics.Inverse_translation, Extrinsics.Inverse_translation, neg_neg]
  refine ⟨hr, ht, ?_⟩
  have h1 : e.Inverse.Inverse.rotation = e.rotation := funext fun i => funext fun j => hr i j
  have h2 : e.Inverse.Inverse.translation = e.translation := funext ht
  exact Extrinsics.eq_of_fields _ _ h1 h2

/-! ## Enumeration helpers: claims -/

/-- C5: for each of the seven enumerations and every 8-bit value `v`, `is_valid`
holds exactly when `v` is strictly below the enumeration's `LAST`. -/
theorem is_valid_iff_lt_LAST (T : EnumType) (v : Nat) (hv : v < 256) :
    is_valid T v = true ↔ v < LAST T := by
  have hT := LAST_lt T
  unfold is_valid utype
  rw [Nat.mod_eq_of_lt (show v < 2 ^ 8 by omega), Nat.mod_eq_of_lt hT]
  exact decide_eq_true_iff

/-- Instance of C5 at `Option` with the value 17 (`ERASE_CHIP`). -/
theorem is_valid_iff_lt_LAST_witness :
    17 < 256 ∧ (is_valid .Option 17 = true ↔ 17 < LAST .Option) :=
  ⟨by decide, is_valid_iff_lt_LAST .Option 17 (by decide)⟩

/-- C6: the `Model` object with underlying value 200 is invalid; printing it writes
the single byte 200, whatever `to_string` is, whereas the decimal representation of
200 is the three bytes `50, 48, 48`; so what is written is not the decimal text. -/
theorem operator_shl_invalid_Model_200 :
    200 < 256 ∧ is_valid .Model 200 = false ∧
    (∀ (to_string : Nat → String) (os : ostream),
      operator_shl to_string .Model os 200 = os ++ [200]) ∧
    decimal 200 = [50, 48, 48] ∧
    (∀ (to_string : Nat → String) (os : ostream),
      operator_shl to_string .Model os 200 ≠ os ++ decimal 200) := by
  have h : ∀ (to_string : Nat → String) (os : ostream),
      operator_shl to_string .Model os 200 = os ++ [200] := by
    intro ts os
    rfl
  refine ⟨by decide, by decide, h, by decide, ?_⟩
  intro ts os hEq
  rw [h] at hEq
  have := List.append_cancel_left hEq
  revert this
  decide

/-! ## Format: claims -/

/-- C7: the four recognised `Format` codes are the little-endian packings
`byte0 | byte1<<8 | byte2<<16 | byte3<<24` of the tags `GREY`, `YUYV`, `BGR3`, `RGB3`,
that is `0x59455247`, `0x56595559`, `0x33524742` and `0x33424752`. -/
theorem Format_underlying_fourcc :
    (Format.underlying .GREY
        = (Char.toNat 'G' ||| Char.toNat 'R' <<< 8 ||| Char.toNat 'E' <<< 16
            ||| Char.toNat 'Y' <<< 24) ∧
      Format.underlying .GREY = 0x59455247) ∧
    (Format.underlying .YUYV
        = (Char.toNat 'Y' ||| Char.toNat 'U' <<< 8 ||| Char.toNat 'Y' <<< 16
            ||| Char.toNat 'V' <<< 24) ∧
      Format.underlying .YUYV = 0x56595559) ∧
    (Format.underlying .BGR888
        = (Char.toNat 'B' ||| Char.toNat 'G' <<< 8 ||| Char.toNat 'R' <<< 16
            ||| Char.toNat '3' <<< 24) ∧
      Format.underlying .BGR888 = 0x33524742) ∧
    (Format.underlying .RGB888
        = (Char.toNat 'R' ||| Char.toNat 'G' <<< 8 ||| Char.toNat 'B' <<< 16
            ||| Char.toNat '3' <<< 24) ∧
      Format.underlying .RGB888 = 0x33424752) := by
  decide

/-- C8: on bytes the packing is injective and order sensitive: byte `i` of
`MYNTEYE_FOURCC(a, b, c, d)` is the `i`-th argument, and two packings are equal only
when the four arguments agree position by position. -/
theorem MYNTEYE_FOURCC_injective (a b c d a' b' c' d' : Nat)
    (ha : a < 256) (hb : b < 256) (hc : c < 256) (hd : d < 256)
    (ha' : a' < 256) (hb' : b' < 256) (hc' : c' < 256) (hd' : d' < 256) :
    (byteAt (MYNTEYE_FOURCC a b c d) 0 = a ∧ byteAt (MYNTEYE_FOURCC a b c d) 1 = b ∧
      byteAt (MYNTEYE_FOURCC a b c d) 2 = c ∧ byteAt (MYNTEYE_FOURCC a b c d) 3 = d) ∧
    (MYNTEYE_FOURCC a b c d = MYNTEYE_FOURCC a' b' c' d' →
      a = a' ∧ b = b' ∧ c = c' ∧ d = d') := by
  have h := MYNTEYE_FOURCC_eq_sum a b c d ha hb hc hd
  have h' := MYNTEYE_FOURCC_eq_sum a' b' c' d' ha' hb' hc' hd'
  refine ⟨⟨?_, ?_, ?_, ?_⟩, ?_⟩
  · rw [byteAt_eq, h]; omega
  · rw [byteAt_eq, h]; omega
  · rw [byteAt_eq, h]; omega
  · rw [byteAt_eq, h]; omega
  · intro heq
    rw [h, h'] at heq
    omega

/-- Instance of C8 at the tags `GREY` and `YERG`: the same characters in two orders. -/
theorem MYNTEYE_FOURCC_injective_witness :
    (71 < 256 ∧ 82 < 256 ∧ 69 < 256 ∧ 89 < 256) ∧
    ((byteAt (MYNTEYE_FOURCC 71 82 69 89) 0 = 71 ∧ byteAt (MYNTEYE_FOURCC 71 82 69 89) 1 = 82 ∧
      byteAt (MYNTEYE_FOURCC 71 82 69 89) 2 = 69 ∧ byteAt (MYNTEYE_FOURCC 71 82 69 89) 3 = 89) ∧
    (MYNTEYE_FOURCC 71 82 69 89 = MYNTEYE_FOURCC 89 69 82 71 →
      71 = 89 ∧ 82 = 69 ∧ 69 = 82 ∧ 89 = 71)) :=
  ⟨by decide,
    MYNTEYE_FOURCC_injective 71 82 69 89 89 69 82 71 (by decide) (by decide) (by decide)
      (by decide) (by decide) (by decide) (by decide) (by decide)⟩

/-! ## Resolution: claims -/

/-- C9: for `a = 65535 x 65535` and `b = 1 x 1`, both within 16 bits, the `int`
product of `a` wraps to `-131071`, so `a < b` is computed true although the area of
`a` is not below the area of `b`; and `b < a` is computed false although the area of
`b` is below the area of `a`. -/
theorem operator_lt_at_65535 :
    Resolution.InRange ⟨65535, 65535⟩ ∧ Resolution.InRange ⟨1, 1⟩ ∧
    intMul 65535 65535 = -131071 ∧
    Resolution.operator_lt ⟨65535, 65535⟩ ⟨1, 1⟩ = true ∧
    ¬ ((⟨65535, 65535⟩ : Resolution).width * (⟨65535, 65535⟩ : Resolution).height
        < (⟨1, 1⟩ : Resolution).width * (⟨1, 1⟩ : Resolution).height) ∧
    Resolution.operator_lt ⟨1, 1⟩ ⟨65535, 65535⟩ = false ∧
    (⟨1, 1⟩ : Resolution).width * (⟨1, 1⟩ : Resolution).height
        < (⟨65535, 65535⟩ : Resolution).width * (⟨65535, 65535⟩ : Resolution).height := by
  decide

/-- When the area fits `int`, the product is defined and is the exact area. -/
lemma intMulDefined_of_fits (r : Resolution) (h : r.AreaFits) :
    intMulDefined r.width r.height = some ((r.width * r.height : Nat) : Int) := by
  have h' : r.width * r.height ≤ 2 ^ 31 - 1 := h
  have hc : ((r.width * r.height : Nat) : Int) ≤ 2 ^ 31 - 1 := by omega
  have h0 : (0 : Int) ≤ ((r.width * r.height : Nat) : Int) := Int.ofNat_nonneg _
  unfold intMulDefined
  rw [← Nat.cast_mul, if_pos ⟨by omega, hc⟩]

/-- When both areas fit `int`, the comparison is defined, compares the exact areas, and
is the value the wrap-around reading gives. -/
lemma Resolution.operator_lt_defined_of_fits (a b : Resolution) (ha : a.AreaFits)
    (hb : b.AreaFits) :
    a.operator_lt_defined b = some (decide (a.width * a.height < b.width * b.height)) ∧
    a.operator_lt_defined b = some (a.operator_lt b) := by
  have e : a.operator_lt_defined b
      = some (decide (a.width * a.height < b.width * b.height)) := by
    unfold Resolution.operator_lt_defined
    rw [intMulDefined_of_fits a ha, intMulDefined_of_fits b hb]
    exact congrArg some (decide_eq_decide.mpr Nat.cast_lt)
  have hw := Resolution.operator_lt_iff_of_fits a b
    (by unfold Resolution.AreaFits at ha; omega) (by unfold Resolution.AreaFits at hb; omega)
  have hbool : decide (a.width * a.height < b.width * b.height) = a.operator_lt b := by
    by_cases hlt : a.width * a.height < b.width * b.height
    · rw [decide_eq_true hlt, hw.mpr hlt]
    · rw [decide_eq_false hlt]
      cases hv : a.operator_lt b
      · rfl
      · exact absurd (hw.mp hv) hlt
  exact ⟨e, by rw [e, hbool]⟩

/-- Resolutions of one area that fits `int` are incomparable: both comparisons are
defined and false. -/
lemma Resolution.operator_lt_defined_tie_of_fits (a b : Resolution) (ha : a.AreaFits)
    (h : a.width * a.height = b.width * b.height) :
    a.operator_lt_defined b = some false ∧ b.operator_lt_defined a = some false := by
  have hb : b.AreaFits := by
    unfold Resolution.AreaFits at ha ⊢
    omega
  rw [(Resolution.operator_lt_defined_of_fits a b ha hb).1,
    (Resolution.operator_lt_defined_of_fits b a hb ha).1, h]
  simp

/-- The instances named with the tie property: `640 x 480 < 800 x 600` is true,
`640 x 480 < 480 x 640` is false and `640 x 480 != 480 x 640` is true. -/
lemma Resolution.operator_lt_defined_instances :
    Resolution.operator_lt_defined ⟨640, 480⟩ ⟨800, 600⟩ = some true ∧
    Resolution.operator_lt_defined ⟨640, 480⟩ ⟨480, 640⟩ = some false ∧
    Resolution.operator_lt_defined ⟨480, 640⟩ ⟨640, 480⟩ = some false ∧
    Resolution.operator_ne ⟨640, 480⟩ ⟨480, 640⟩ = true := by
  decide

/-- C11: the constructor from a `Resolution` builds the same request as the
constructor from its width and height, `GetResolution()` of it gives back the
resolution, `r == s` holds exactly when width, height, format and fps are pairwise
equal, and `r != s` is the negation of `r == s`. -/
theorem StreamRequest_construction_and_equality (res : Resolution) (f fps : Nat)
    (r s : StreamRequest) :
    (StreamRequest.ofResolution res f fps).operator_eq
        (StreamRequest.ofDimensions res.width res.height f fps) = true ∧
    (StreamRequest.ofResolution res f fps).GetResolution = res ∧
    (StreamRequest.ofResolution res f fps).GetResolution.operator_eq res = true ∧
    (r.operator_eq s = true ↔
      r.width = s.width ∧ r.height = s.height ∧ r.format = s.format ∧ r.fps = s.fps) ∧
    r.operator_ne s = !(r.operator_eq s) := by
  refine ⟨?_, rfl, ?_, ?_, rfl⟩
  · simp [StreamRequest.operator_eq, StreamRequest.ofResolution, StreamRequest.ofDimensions]
  · simp [Resolution.operator_eq, StreamRequest.GetResolution, StreamRequest.ofResolution]
  · simp [StreamRequest.operator_eq, and_assoc]

/-! ## Frame records: claims -/

/-- C12: after `ImuData::Reset()` the flag and the timestamp are 0, the three accel
entries and the three gyro entries are 0, the temperature is 0, and the frame id is
what it was before the call. -/
theorem ImuData_Reset_state {α : Type} [Zero α] (d : ImuData α) :
    d.Reset.flag = 0 ∧ d.Reset.timestamp = 0 ∧
    (∀ i : Fin 3, d.Reset.accel i = 0) ∧ (∀ i : Fin 3, d.Reset.gyro i = 0) ∧
    d.Reset.temperature = 0 ∧ d.Reset.frame_id = d.frame_id := by
  refine ⟨rfl, rfl, ?_, ?_, rfl, rfl⟩
  · intro i
    have hi := i.isLt
    simp [ImuData.Reset, fill, hi]
  · intro i
    have hi := i.isLt
    simp [ImuData.Reset, fill, hi]

/-- C13: `Reset()` is idempotent on both frame records: resetting twice gives the same
state, every field included, as resetting once. -/
theorem Reset_idempotent {α : Type} [Zero α] (x : ImgData) (d : ImuData α) :
    x.Reset.Reset = x.Reset ∧ d.Reset.Reset = d.Reset := by
  refine ⟨rfl, ?_⟩
  have ha : fill (fill d.accel 0 3 (0 : α)) 0 3 0 = fill d.accel 0 3 0 := by
    funext i
    have hi := i.isLt
    simp [fill, hi]
  have hg : fill (fill d.gyro 0 3 (0 : α)) 0 3 0 = fill d.gyro 0 3 0 := by
    funext i
    have hi := i.isLt
    simp [fill, hi]
  simp only [ImuData.Reset, ha, hg]

/-- C14: `ImgData::Reset()` sets frame id, timestamp and exposure time to 0; a default
constructed record is in that zeroed state; the copy constructor and the copy
assignment from `y` give a record with the three fields of `y` and leave `y` as it
was. -/
theorem ImgData_Reset_and_copy (x y storage : ImgData) :
    (x.Reset.frame_id = 0 ∧ x.Reset.timestamp = 0 ∧ x.Reset.exposure_time = 0) ∧
    ((ImgData.ctor storage).frame_id = 0 ∧ (ImgData.ctor storage).timestamp = 0 ∧
      (ImgData.ctor storage).exposure_time = 0 ∧ ImgData.ctor storage = x.Reset) ∧
    ((ImgData.copy_ctor storage y).1.frame_id = y.frame_id ∧
      (ImgData.copy_ctor storage y).1.timestamp = y.timestamp ∧
      (ImgData.copy_ctor storage y).1.exposure_time = y.exposure_time ∧
      (ImgData.copy_ctor storage y).2 = y) ∧
    ((ImgData.operator_assign x y).1.frame_id = y.frame_id ∧
      (ImgData.operator_assign x y).1.timestamp = y.timestamp ∧
      (ImgData.operator_assign x y).1.exposure_time = y.exposure_time ∧
      (ImgData.operator_assign x y).2 = y) :=
  ⟨⟨rfl, rfl, rfl⟩, ⟨rfl, rfl, rfl, rfl⟩, ⟨rfl, rfl, rfl, rfl⟩, ⟨rfl, rfl, rfl, rfl⟩⟩

/-! ## Calibration tag: claims -/

/-- C15: a default constructed `Intrinsics` carries `CALIB_MODEL_PINHOLE` (0), a
default constructed `Intrinsics2` carries `CALIB_MODEL_KANNALA_BRANDT` (1), a default
constructed `IntrinsicsBase` carries `CALIB_MODEL_UNKNOW` (2), read through the base
view; the three tags have pairwise distinct values. -/
theorem calib_model_of_ctor {α : Type} (b : IntrinsicsBase) (p : Intrinsics α)
    (k : Intrinsics2 α) :
    ((Intrinsics.ctor p).toIntrinsicsBase.calib_model_ = .CALIB_MODEL_PINHOLE ∧
      CalibrationModel.value .CALIB_MODEL_PINHOLE = 0) ∧
    ((Intrinsics2.ctor k).toIntrinsicsBase.calib_model_ = .CALIB_MODEL_KANNALA_BRANDT ∧
      CalibrationModel.value .CALIB_MODEL_KANNALA_BRANDT = 1) ∧
    ((IntrinsicsBase.ctor b).calib_model_ = .CALIB_MODEL_UNKNOW ∧
      CalibrationModel.value .CALIB_MODEL_UNKNOW = 2) ∧
    (CalibrationModel.value .CALIB_MODEL_PINHOLE
        ≠ CalibrationModel.value .CALIB_MODEL_KANNALA_BRANDT ∧
      CalibrationModel.value .CALIB_MODEL_PINHOLE
        ≠ CalibrationModel.value .CALIB_MODEL_UNKNOW ∧
      CalibrationModel.value .CALIB_MODEL_KANNALA_BRANDT
        ≠ CalibrationModel.value .CALIB_MODEL_UNKNOW) ∧
    (∀ t u : CalibrationModel, t.value = u.value ↔ t = u) := by
  refine ⟨⟨rfl, rfl⟩, ⟨rfl, rfl⟩, ⟨rfl, rfl⟩, by decide, ?_⟩
  intro t u
  cases t <;> cases u <;> decide

/-! ## Enumeration ordinals: claims -/

/-- C16: each of the seven enumerations is contiguous from 0: its enumerators take the
values `0, 1, ..., N` in declaration order, the last one is the guard `LAST = N`, with
`N` being 3, 8, 9, 8, 18, 3 and 2 for `Model`, `Stream`, `Capabilities`, `Info`,
`Option`, `Source` and `AddOns`; every enumerator before the guard is valid and the
guard is not. -/
theorem enumerations_contiguous :
    (LAST .Model = 3 ∧ LAST .Stream = 8 ∧ LAST .Capabilities = 9 ∧ LAST .Info = 8 ∧
      LAST .Option = 18 ∧ LAST .Source = 3 ∧ LAST .AddOns = 2) ∧
    (∀ T : EnumType,
      (enumerators T).map (enumerator T) = List.range (LAST T + 1) ∧
      (enumerators T).getLast? = some "LAST" ∧
      (enumerators T).dropLast.length = LAST T ∧
      ((enumerators T).dropLast.all fun name => is_valid T (enumerator T name)) = true ∧
      is_valid T (LAST T) = false) := by
  refine ⟨by decide, ?_⟩
  intro T
  cases T <;> decide

/-! ## Format: further claims -/

/-- C17: `bytes_per_pixel` gives 1 for `GREY`, 2 for `YUYV`, 3 for `BGR888` and 3 for
`RGB888`; for every other code it gives the unknown-format outcome; and it never gives
the size 0. -/
theorem bytes_per_pixel_outcomes (code : Nat) :
    (bytes_per_pixel (Format.underlying .GREY) = some 1 ∧
      bytes_per_pixel (Format.underlying .YUYV) = some 2 ∧
      bytes_per_pixel (Format.underlying .BGR888) = some 3 ∧
      bytes_per_pixel (Format.underlying .RGB888) = some 3) ∧
    (code ≠ Format.underlying .GREY → code ≠ Format.underlying .YUYV →
      code ≠ Format.underlying .BGR888 → code ≠ Format.underlying .RGB888 →
      bytes_per_pixel code = none) ∧
    bytes_per_pixel code ≠ some 0 := by
  refine ⟨by decide, ?_, ?_⟩
  · intro h1 h2 h3 h4
    simp [bytes_per_pixel, h1, h2, h3, h4]
  · unfold bytes_per_pixel
    split_ifs <;> simp

/-- Instance of C17 at the code of `Format::LAST`, which is not a recognised format. -/
theorem bytes_per_pixel_outcomes_witness :
    (Format.underlying .LAST ≠ Format.underlying .GREY ∧
      Format.underlying .LAST ≠ Format.underlying .YUYV ∧
      Format.underlying .LAST ≠ Format.underlying .BGR888 ∧
      Format.underlying .LAST ≠ Format.underlying .RGB888) ∧
    bytes_per_pixel (Format.underlying .LAST) = none :=
  ⟨by decide,
    (bytes_per_pixel_outcomes (Format.underlying .LAST)).2.1 (by decide) (by decide)
      (by decide) (by decide)⟩

/-- C20: `Format::LAST` is `RGB888 + 1 = 0x33424753`; it differs from the four
recognised codes, which are pairwise distinct; `RGB888` is below `LAST` while
`BGR888`, `YUYV` and `GREY` are above it, so `v < LAST` does not single out the
recognised formats. -/
theorem Format_LAST_not_a_bound :
    (Format.underlying .LAST = Format.underlying .RGB888 + 1 ∧
      Format.underlying .LAST = 0x33424753) ∧
    (Format.underlying .LAST ≠ Format.underlying .GREY ∧
      Format.underlying .LAST ≠ Format.underlying .YUYV ∧
      Format.underlying .LAST ≠ Format.underlying .BGR888 ∧
      Format.underlying .LAST ≠ Format.underlying .RGB888) ∧
    (Format.underlying .GREY ≠ Format.underlying .YUYV ∧
      Format.underlying .GREY ≠ Format.underlying .BGR888 ∧
      Format.underlying .GREY ≠ Format.underlying .RGB888 ∧
      Format.underlying .YUYV ≠ Format.underlying .BGR888 ∧
      Format.underlying .YUYV ≠ Format.underlying .RGB888 ∧
      Format.underlying .BGR888 ≠ Format.underlying .RGB888) ∧
    (Format.underlying .RGB888 < Format.underlying .LAST ∧
      Format.underlying .LAST < Format.underlying .BGR888 ∧
      Format.underlying .LAST < Format.underlying .YUYV ∧
      Format.underlying .LAST < Format.underlying .GREY) ∧
    ¬ (∀ v : Format, v ≠ .LAST → Format.underlying v < Format.underlying .LAST) := by
  refine ⟨by decide, by decide, by decide, by decide, ?_⟩
  intro h
  exact absurd (h .GREY (by decide)) (by decide)

/-! ## Resolution: further claims -/

/-- A lemma for the ordering claims: `operator<` compares the `int` products. -/
lemma Resolution.operator_lt_iff (a b : Resolution) :
    a.operator_lt b = true ↔ intMul a.width a.height < intMul b.width b.height := by
  unfold Resolution.operator_lt
  exact decide_eq_true_iff

/-- A lemma for the ordering claims: `operator<` is false exactly when the `int`
product of the right operand is at most that of the left one. -/
lemma Resolution.operator_lt_eq_false_iff (a b : Resolution) :
    a.operator_lt b = false ↔ intMul b.width b.height ≤ intMul a.width a.height := by
  unfold Resolution.operator_lt
  rw [decide_eq_false_iff_not]
  exact not_lt

/-- C18: on resolutions whose areas fit a signed 32-bit `int`, `operator<` is a strict
weak ordering: irreflexive, asymmetric, transitive, with transitive incomparability;
two such resolutions are incomparable exactly when their areas are equal, so all
resolutions of one area form one equivalence class. -/
theorem operator_lt_strict_weak_order (a b c : Resolution)
    (ha : a.AreaFits) (hb : b.AreaFits) (hc : c.AreaFits) :
    a.operator_lt a = false ∧
    (a.operator_lt b = true → b.operator_lt a = false) ∧
    (a.operator_lt b = true → b.operator_lt c = true → a.operator_lt c = true) ∧
    (a.Incomparable b → b.Incomparable c → a.Incomparable c) ∧
    (a.Incomparable b ↔ a.width * a.height = b.width * b.height) := by
  have hab := Resolution.operator_lt_iff_of_fits a b
    (by unfold Resolution.AreaFits at ha; omega) (by unfold Resolution.AreaFits at hb; omega)
  have hba := Resolution.operator_lt_iff_of_fits b a
    (by unfold Resolution.AreaFits at hb; omega) (by unfold Resolution.AreaFits at ha; omega)
  have hc' : c.width * c.height ≤ 2 ^ 31 - 1 := hc
  refine ⟨?_, ?_, ?_, ?_, ?_⟩
  · rw [Resolution.operator_lt_eq_false_iff]
  · rw [Resolution.operator_lt_iff, Resolution.operator_lt_eq_false_iff]
    intro h
    omega
  · rw [Resolution.operator_lt_iff, Resolution.operator_lt_iff, Resolution.operator_lt_iff]
    intro h1 h2
    omega
  · unfold Resolution.Incomparable
    rw [Resolution.operator_lt_eq_false_iff, Resolution.operator_lt_eq_false_iff,
      Resolution.operator_lt_eq_false_iff, Resolution.operator_lt_eq_false_iff,
      Resolution.operator_lt_eq_false_iff, Resolution.operator_lt_eq_false_iff]
    intro h1 h2
    omega
  · unfold Resolution.Incomparable
    rw [← Bool.not_eq_true, ← Bool.not_eq_true, hab, hba]
    omega

/-- Instance of C18 at `640 x 480`, `480 x 640` and `800 x 600`. -/
theorem operator_lt_strict_weak_order_witness :
    (Resolution.AreaFits ⟨640, 480⟩ ∧ Resolution.AreaFits ⟨480, 640⟩ ∧
      Resolution.AreaFits ⟨800, 600⟩) ∧
    (Resolution.operator_lt ⟨640, 480⟩ ⟨640, 480⟩ = false ∧
    (Resolution.operator_lt ⟨640, 480⟩ ⟨480, 640⟩ = true →
      Resolution.operator_lt ⟨480, 640⟩ ⟨640, 480⟩ = false) ∧
    (Resolution.operator_lt ⟨640, 480⟩ ⟨480, 640⟩ = true →
      Resolution.operator_lt ⟨480, 640⟩ ⟨800, 600⟩ = true →
      Resolution.operator_lt ⟨640, 480⟩ ⟨800, 600⟩ = true) ∧
    (Resolution.Incomparable ⟨640, 480⟩ ⟨480, 640⟩ →
      Resolution.Incomparable ⟨480, 640⟩ ⟨800, 600⟩ →
      Resolution.Incomparable ⟨640, 480⟩ ⟨800, 600⟩) ∧
    (Resolution.Incomparable ⟨640, 480⟩ ⟨480, 640⟩ ↔
      (⟨640, 480⟩ : Resolution).width * (⟨640, 480⟩ : Resolution).height
        = (⟨480, 640⟩ : Resolution).width * (⟨480, 640⟩ : Resolution).height)) :=
  ⟨by decide,
    operator_lt_strict_weak_order ⟨640, 480⟩ ⟨480, 640⟩ ⟨800, 600⟩ (by decide) (by decide)
      (by decide)⟩

/-- C19: with the products taken in wrapping 32-bit `int`, `a < b` is the comparison of
the exact areas whenever both areas are at most `2 ^ 31 - 1`, in particular whenever
all four dimensions are at most 46340; and for the 16-bit dimensions
`a = 65535 x 65535`, `b = 1 x 1` the computed comparison is true while the exact area
of `a` is not below that of `b`. -/
theorem operator_lt_exact_within_int :
    (∀ a b : Resolution, a.AreaFits → b.AreaFits →
      (a.operator_lt b = true ↔ a.width * a.height < b.width * b.height)) ∧
    (∀ a b : Resolution, a.width ≤ 46340 → a.height ≤ 46340 → b.width ≤ 46340 →
      b.height ≤ 46340 →
      (a.operator_lt b = true ↔ a.width * a.height < b.width * b.height)) ∧
    (∃ a b : Resolution, a.InRange ∧ b.InRange ∧ ¬ a.AreaFits ∧
      a.operator_lt b = true ∧ ¬ (a.width * a.height < b.width * b.height)) := by
  have key : ∀ a b : Resolution, a.AreaFits → b.AreaFits →
      (a.operator_lt b = true ↔ a.width * a.height < b.width * b.height) := by
    intro a b ha hb
    exact Resolution.operator_lt_iff_of_fits a b
      (by unfold Resolution.AreaFits at ha; omega) (by unfold Resolution.AreaFits at hb; omega)
  have small : ∀ r : Resolution, r.width ≤ 46340 → r.height ≤ 46340 → r.AreaFits := by
    intro r hw hh
    have h := Nat.mul_le_mul hw hh
    unfold Resolution.AreaFits
    omega
  refine ⟨key, ?_, ⟨⟨65535, 65535⟩, ⟨1, 1⟩, ?_⟩⟩
  · intro a b h1 h2 h3 h4
    exact key a b (small a h1 h2) (small b h3 h4)
  · decide

/-- Instance of C19 at `640 x 480` and `800 x 600`. -/
theorem operator_lt_exact_within_int_witness :
    (Resolution.AreaFits ⟨640, 480⟩ ∧ Resolution.AreaFits ⟨800, 600⟩) ∧
    (Resolution.operator_lt ⟨640, 480⟩ ⟨800, 600⟩ = true ↔
      (⟨640, 480⟩ : Resolution).width * (⟨640, 480⟩ : Resolution).height
        < (⟨800, 600⟩ : Resolution).width * (⟨800, 600⟩ : Resolution).height) :=
  ⟨by decide,
    operator_lt_exact_within_int.1 ⟨640, 480⟩ ⟨800, 600⟩ (by decide) (by decide)⟩

end mynteye
